import Mathlib

/-!
Shallow embedding of the Vidlancing backend controllers
(src/Controllers/order.controller.js and src/Controllers/job.controller.js).

Each controller handler is translated as a pure Lean function over an explicit
request / database state; the prisma calls become operations on Lean lists, and
the Express `next(new ApiError(...))` / `res.json(...)` outcomes become
`Except ApiError result` values.  JavaScript truthiness that the code relies on
(`!status`, `!pricing`, `x || dflt`, `if (field)`) is modelled explicitly.
Times are epoch milliseconds (`Int`); JS numbers are modelled as `ℚ`.
-/

deriving instance DecidableEq for Except

namespace Vidlancing

/-- `ApiError(statusCode, message)` from src/Utils/ApiError.js as used by the
controllers (the optional details argument is dropped: no claim concerns it). -/
structure ApiError where
  statusCode : Nat
  message : String
deriving DecidableEq, Repr

/-- The authenticated request user (`req.user`), supplied by the auth
middleware as `{id, role}`. -/
structure AuthUser where
  id : Nat
  role : String
deriving DecidableEq, Repr

/-- `req.user && req.user.id` — the controllers treat a missing user or a
falsy id (0) as unauthenticated. -/
def authedUser : Option AuthUser → Option AuthUser
  | none => none
  | some u => if u.id = 0 then none else some u

/-- JS `a || b` for an optional string: `undefined` and `""` are falsy. -/
def jsOrStr : Option String → String → String
  | some s, d => if s = "" then d else s
  | none, d => d

/-- JS truthiness of an optional string (`if (extensionReason)` etc.):
true exactly for a present, non-empty string. -/
def strTruthy : Option String → Bool
  | some s => s ≠ ""
  | none => false

/-- JS `a || b` for an optional number: `undefined` and `0` are falsy
(`updateData.budgetMin || job.budgetMin` in updateJob). -/
def jsOrNum : Option ℚ → ℚ → ℚ
  | some q, d => if q = 0 then d else q
  | none, d => d

/-! ## Order module data model (order.controller.js) -/

/-- The order status enumeration (§6 of the schema: PENDING, ACCEPTED,
IN_PROGRESS, DELIVERED, DISPUTED, COMPLETED, CANCELLED). -/
inductive OrderStatus
  | PENDING
  | ACCEPTED
  | IN_PROGRESS
  | DELIVERED
  | DISPUTED
  | COMPLETED
  | CANCELLED
deriving DecidableEq, Repr

/-- Rendering of a status into the error-message string (JS template literal
interpolation of the status string). -/
def OrderStatus.str : OrderStatus → String
  | .PENDING => "PENDING"
  | .ACCEPTED => "ACCEPTED"
  | .IN_PROGRESS => "IN_PROGRESS"
  | .DELIVERED => "DELIVERED"
  | .DISPUTED => "DISPUTED"
  | .COMPLETED => "COMPLETED"
  | .CANCELLED => "CANCELLED"

/-- One StatusHistory row: `{status, changedBy}` (`changedBy` is absent on the
initial PENDING entry written by createOrder). -/
structure StatusHistoryEntry where
  status : OrderStatus
  changedBy : Option Nat
deriving DecidableEq, Repr

/-- An Order row, with the `freelancer` relation flattened to the one field the
controllers read from it (`order.freelancer.userId`). -/
structure Order where
  id : Nat
  gigId : Nat
  clientId : Nat
  freelancerId : Nat
  freelancerUserId : Nat
  package : String
  totalPrice : ℚ
  requirements : Option String
  isUrgent : Bool
  priorityFee : Option ℚ
  customDetails : Option String
  orderNumber : String
  deliveryDeadline : Int
  deliveryExtensions : Nat
  extensionReason : Option String
  cancellationReason : Option String
  cancellationDate : Option Int
  completedAt : Option Int
  status : OrderStatus
  statusHistory : List StatusHistoryEntry
deriving DecidableEq, Repr

/-- The `validTransitions` object of updateOrderStatus (order.controller.js
lines 86-92).  COMPLETED and CANCELLED have no key in the JS object; the
lookup `validTransitions[order.status]?.includes(status)` is then false, which
the empty list reproduces. -/
def validTransitions : OrderStatus → List OrderStatus
  | .PENDING => [.ACCEPTED, .CANCELLED]
  | .ACCEPTED => [.IN_PROGRESS, .CANCELLED]
  | .IN_PROGRESS => [.DELIVERED, .CANCELLED]
  | .DELIVERED => [.COMPLETED, .DISPUTED]
  | .DISPUTED => [.COMPLETED, .CANCELLED]
  | .COMPLETED => []
  | .CANCELLED => []

/-- The message of the 400 error at order.controller.js line 94.  A missing /
empty request status interpolates as `undefined` in the template literal. -/
def invalidTransitionMsg (cur : OrderStatus) (tgt : Option OrderStatus) : String :=
  "Invalid status transition from " ++ cur.str ++ " to "
    ++ (match tgt with
        | some s => s.str
        | none => "undefined")

/-- The update payload built at order.controller.js lines 97-116, applied to
the order: sets the new status, runs the CANCELLED / COMPLETED / extension
branch, and appends one StatusHistory row `{status, changedBy: userId}`. -/
def applyStatusUpdate (now : Int) (userId : Nat) (order : Order) (s : OrderStatus)
    (extensionReason : Option String) (cancellationReason : Option String) : Order :=
  let base := { order with
    status := s,
    statusHistory := order.statusHistory ++ [⟨s, some userId⟩] }
  if s = .CANCELLED then
    { base with
      cancellationReason := some (jsOrStr cancellationReason "Not specified"),
      cancellationDate := some now }
  else if s = .COMPLETED then
    { base with completedAt := some now }
  else if strTruthy extensionReason then
    { base with
      deliveryExtensions := order.deliveryExtensions + 1,
      extensionReason := extensionReason,
      deliveryDeadline := order.deliveryDeadline + 7 * 24 * 60 * 60 * 1000 }
  else base

/-- `updateOrderStatus` (order.controller.js lines 63-123).  `order?` is the
result of the findUnique on `orderId`; `status?` is the request body status,
`none` standing for a missing or empty (falsy) value, which the check
`!status || ...` at line 93 rejects. -/
def updateOrderStatus (now : Int) (user? : Option AuthUser) (order? : Option Order)
    (status? : Option OrderStatus) (extensionReason : Option String)
    (cancellationReason : Option String) : Except ApiError Order :=
  match authedUser user? with
  | none => .error ⟨401, "Unauthorized: User not authenticated"⟩
  | some u =>
    match order? with
    | none => .error ⟨404, "Order not found"⟩
    | some order =>
      if ¬ (order.clientId = u.id ∨ order.freelancerUserId = u.id) then
        .error ⟨403, "Forbidden: You can only update your own orders"⟩
      else
        match status? with
        | none => .error ⟨400, invalidTransitionMsg order.status none⟩
        | some s =>
          if order.status ≠ .COMPLETED ∧ s ∉ validTransitions order.status then
            .error ⟨400, invalidTransitionMsg order.status (some s)⟩
          else
            .ok (applyStatusUpdate now u.id order s extensionReason cancellationReason)

/-- The status whitelist of cancelOrder (order.controller.js line 259). -/
def cancellableStatuses : List OrderStatus := [.PENDING, .ACCEPTED, .IN_PROGRESS]

/-- `cancelOrder` (order.controller.js lines 240-279). -/
def cancelOrder (now : Int) (user? : Option AuthUser) (order? : Option Order)
    (cancellationReason : Option String) : Except ApiError Order :=
  match authedUser user? with
  | none => .error ⟨401, "Unauthorized: User not authenticated"⟩
  | some u =>
    match order? with
    | none => .error ⟨404, "Order not found"⟩
    | some order =>
      if ¬ (order.clientId = u.id ∨ order.freelancerUserId = u.id) then
        .error ⟨403, "Forbidden: You can only cancel your own orders"⟩
      else if ¬ (order.status ∈ cancellableStatuses) then
        .error ⟨400, "Order cannot be cancelled in its current status"⟩
      else
        .ok { order with
          status := .CANCELLED,
          cancellationReason := some (jsOrStr cancellationReason "Not specified"),
          cancellationDate := some now,
          statusHistory := order.statusHistory ++ [⟨.CANCELLED, some u.id⟩] }

/-! ## createOrder (order.controller.js lines 6-58) -/

/-- A Gig row with its relations flattened to the fields createOrder reads.
`pricing` is the JSON pricing object, a map from package key to price. -/
structure Gig where
  id : Nat
  freelancerId : Nat
  freelancerUserId : Nat
  status : String
  pricing : List (String × ℚ)
  deliveryTime : Int
deriving DecidableEq, Repr

/-- The createOrder request body.  `gigId = none` models a missing/falsy gig
id (rejected at line 15); an empty `selectedPackage` is likewise falsy. -/
structure CreateOrderReq where
  gigId : Option Nat
  selectedPackage : String
  requirements : Option String
  isUrgent : Bool
  customDetails : Option String
deriving DecidableEq, Repr

/-- `gig.pricing[selectedPackage]`: property lookup in the pricing object. -/
def lookupPricing (pricing : List (String × ℚ)) (key : String) : Option ℚ :=
  (pricing.find? (fun p => p.1 == key)).map (fun p => p.2)

/-- `createOrder`.  `gigs` is the gig table backing the findUnique; `newId` is
the id the store assigns; `datePart`/`randPart` stand for the date stamp and
the `Math.random()` suffix of the generated order number (line 33), which the
embedding takes as parameters since no claim depends on them. -/
def createOrder (now : Int) (user? : Option AuthUser) (gigs : List Gig)
    (req : CreateOrderReq) (newId : Nat) (datePart randPart : String) :
    Except ApiError Order :=
  match authedUser user? with
  | none => .error ⟨401, "Unauthorized: User not authenticated"⟩
  | some u =>
    match req.gigId with
    | none => .error ⟨400, "Gig ID and package are required"⟩
    | some gid =>
      if req.selectedPackage = "" then
        .error ⟨400, "Gig ID and package are required"⟩
      else
        match gigs.find? (fun g => g.id == gid) with
        | none => .error ⟨404, "Gig not found or not active"⟩
        | some gig =>
          if gig.status ≠ "ACTIVE" then
            .error ⟨404, "Gig not found or not active"⟩
          else
            match lookupPricing gig.pricing req.selectedPackage with
            | none => .error ⟨400, "Invalid package selected"⟩
            | some pricing =>
              -- `if (!pricing)`: a price of 0 is falsy and is rejected too.
              if pricing = 0 then
                .error ⟨400, "Invalid package selected"⟩
              else
                .ok { id := newId
                      gigId := gig.id
                      clientId := u.id
                      freelancerId := gig.freelancerId
                      freelancerUserId := gig.freelancerUserId
                      package := req.selectedPackage
                      totalPrice := if req.isUrgent then pricing * 1.5 else pricing
                      requirements := req.requirements
                      isUrgent := req.isUrgent
                      priorityFee := if req.isUrgent then some (pricing * 0.5) else none
                      customDetails := req.customDetails
                      orderNumber := "ORD-" ++ datePart ++ "-" ++ randPart
                      deliveryDeadline := now + gig.deliveryTime * 24 * 60 * 60 * 1000
                      deliveryExtensions := 0
                      extensionReason := none
                      cancellationReason := none
                      cancellationDate := none
                      completedAt := none
                      status := .PENDING
                      statusHistory := [⟨.PENDING, none⟩] }

/-! ## Job module data model (job.controller.js) -/

/-- A Job row with the fields the job controllers read and write. -/
structure Job where
  id : Nat
  postedById : Nat
  title : String
  description : String
  category : List String
  budgetMin : ℚ
  budgetMax : ℚ
  deadline : Int
  jobDifficulty : String
  projectLength : String
  keyResponsibilities : List String
  requiredSkills : List String
  tools : List String
  scope : String
  name : String
  email : String
  company : Option String
  note : Option String
  videoFileUrl : Option String
  isVerified : Bool
  proposals : Nat
deriving DecidableEq, Repr

/-- A request-body value that may arrive as a scalar or as an array
(the `Array.isArray(x) ? x : [x]` normalization in updateJob). -/
inductive StrOrList
  | scalar (s : String)
  | list (l : List String)
deriving DecidableEq, Repr

/-- JS truthiness of such a value: an empty string is falsy; any array
(even empty) is truthy. -/
def StrOrList.truthy : StrOrList → Bool
  | .scalar s => s ≠ ""
  | .list _ => true

/-- `Array.isArray(x) ? x : [x]`. -/
def StrOrList.norm : StrOrList → List String
  | .scalar s => [s]
  | .list l => l

/-- `if (field)` guard on an optional string body field: present non-empty
strings pass; `undefined` and `""` are skipped. -/
def optTruthy : Option String → Option String
  | some s => if s = "" then none else some s
  | none => none

/-- `if (field)` guard plus array normalization for the list-typed fields. -/
def listify : Option StrOrList → Option (List String)
  | some v => if v.truthy then some v.norm else none
  | none => none

/-- The updateJob request body (job.controller.js lines 132-136).
For `budgetMin`/`budgetMax`, the outer `Option` is the `!== undefined` check
and the inner `Option ℚ` is the `parseFloat` result (`none` = NaN, i.e. a
non-numeric value).  For `deadline`, the outer `Option` is the truthiness
guard and the inner `Option Int` is the parsed date (`none` = `new Date(..)`
with a NaN timestamp). -/
structure UpdateJobReq where
  title : Option String := none
  description : Option String := none
  category : Option StrOrList := none
  budgetMin : Option (Option ℚ) := none
  budgetMax : Option (Option ℚ) := none
  deadline : Option (Option Int) := none
  jobDifficulty : Option String := none
  projectLength : Option String := none
  keyResponsibilities : Option StrOrList := none
  requiredSkills : Option StrOrList := none
  tools : Option StrOrList := none
  scope : Option String := none
  name : Option String := none
  email : Option String := none
  company : Option String := none
  note : Option String := none
  videoFileUrl : Option String := none
deriving DecidableEq, Repr

/-- The `updateData` object of updateJob: only the supplied (and validated)
fields are set. -/
structure UpdateData where
  title : Option String := none
  description : Option String := none
  category : Option (List String) := none
  budgetMin : Option ℚ := none
  budgetMax : Option ℚ := none
  deadline : Option Int := none
  jobDifficulty : Option String := none
  projectLength : Option String := none
  keyResponsibilities : Option (List String) := none
  requiredSkills : Option (List String) := none
  tools : Option (List String) := none
  scope : Option String := none
  name : Option String := none
  email : Option String := none
  company : Option String := none
  note : Option String := none
  videoFileUrl : Option String := none
deriving DecidableEq, Repr

/-- budgetMin validation (job.controller.js lines 149-155): if supplied, the
parsed value must be a number and ≥ 0. -/
def checkBudgetMin (r : UpdateJobReq) : Except ApiError (Option ℚ) :=
  match r.budgetMin with
  | none => .ok none
  | some none => .error ⟨400, "Invalid budgetMin value"⟩
  | some (some m) =>
    if m < 0 then .error ⟨400, "Invalid budgetMin value"⟩ else .ok (some m)

/-- budgetMax validation (lines 156-162): if supplied, the parsed value must
be a number and must not be below `updateData.budgetMin || job.budgetMin` —
note the JS `||`, under which a just-updated budgetMin of 0 is falsy and the
stored `job.budgetMin` is used instead. -/
def checkBudgetMax (r : UpdateJobReq) (newMin : Option ℚ) (job : Job) :
    Except ApiError (Option ℚ) :=
  match r.budgetMax with
  | none => .ok none
  | some none => .error ⟨400, "Invalid budgetMax value; must be greater than budgetMin"⟩
  | some (some m) =>
    if m < jsOrNum newMin job.budgetMin then
      .error ⟨400, "Invalid budgetMax value; must be greater than budgetMin"⟩
    else .ok (some m)

/-- deadline validation (lines 163-169): if supplied (truthy), it must parse
and must not be before `new Date()` (the current time). -/
def checkDeadline (now : Int) (r : UpdateJobReq) : Except ApiError (Option Int) :=
  match r.deadline with
  | none => .ok none
  | some none => .error ⟨400, "Invalid deadline. Please provide a future date"⟩
  | some (some t) =>
    if t < now then .error ⟨400, "Invalid deadline. Please provide a future date"⟩
    else .ok (some t)

/-- The email pattern of line 178, `^[^\s@]+@[^\s@]+\.[^\s@]+$`: exactly one
`@`; no whitespace anywhere; a non-empty local part; and a `.` in the domain
with at least one character on each side (the character classes `[^\s@]`
admit further dots).  Computed on the character list so proofs can evaluate
it. -/
def emailRegexMatch (s : String) : Bool :=
  match s.data.splitOn '@' with
  | [lp, dom] =>
    !lp.isEmpty
      && lp.all (fun c => !c.isWhitespace)
      && dom.all (fun c => !c.isWhitespace)
      && ((dom.drop 1).dropLast.contains '.')
  | _ => false

/-- email validation (lines 177-183): if supplied (truthy), it must match the
basic pattern. -/
def checkEmail (r : UpdateJobReq) : Except ApiError (Option String) :=
  match r.email with
  | none => .ok none
  | some e =>
    if e = "" then .ok none
    else if emailRegexMatch e then .ok (some e)
    else .error ⟨400, "Invalid email format"⟩

/-- Builds the `updateData` object (job.controller.js lines 145-186),
threading the four checks that can fail, in source order: budgetMin,
budgetMax, deadline, email.  The remaining fields never fail and are
collected by their truthiness / `!== undefined` guards. -/
def buildUpdateData (now : Int) (job : Job) (r : UpdateJobReq) :
    Except ApiError UpdateData :=
  match checkBudgetMin r with
  | .error e => .error e
  | .ok bmin =>
    match checkBudgetMax r bmin job with
    | .error e => .error e
    | .ok bmax =>
      match checkDeadline now r with
      | .error e => .error e
      | .ok dl =>
        match checkEmail r with
        | .error e => .error e
        | .ok em =>
          .ok { title := optTruthy r.title
                description := optTruthy r.description
                category := listify r.category
                budgetMin := bmin
                budgetMax := bmax
                deadline := dl
                jobDifficulty := optTruthy r.jobDifficulty
                projectLength := optTruthy r.projectLength
                keyResponsibilities := listify r.keyResponsibilities
                requiredSkills := listify r.requiredSkills
                tools := listify r.tools
                scope := optTruthy r.scope
                name := optTruthy r.name
                email := em
                company := r.company
                note := r.note
                videoFileUrl := r.videoFileUrl }

/-- `prisma.job.update({data: updateData})`: supplied fields overwrite the
stored row, the rest are untouched. -/
def applyUpdateData (job : Job) (ud : UpdateData) : Job :=
  { job with
    title := ud.title.getD job.title
    description := ud.description.getD job.description
    category := ud.category.getD job.category
    budgetMin := ud.budgetMin.getD job.budgetMin
    budgetMax := ud.budgetMax.getD job.budgetMax
    deadline := ud.deadline.getD job.deadline
    jobDifficulty := ud.jobDifficulty.getD job.jobDifficulty
    projectLength := ud.projectLength.getD job.projectLength
    keyResponsibilities := ud.keyResponsibilities.getD job.keyResponsibilities
    requiredSkills := ud.requiredSkills.getD job.requiredSkills
    tools := ud.tools.getD job.tools
    scope := ud.scope.getD job.scope
    name := ud.name.getD job.name
    email := ud.email.getD job.email
    company := match ud.company with
      | some c => some c
      | none => job.company
    note := match ud.note with
      | some n => some n
      | none => job.note
    videoFileUrl := match ud.videoFileUrl with
      | some v => some v
      | none => job.videoFileUrl }

/-- `updateJob` (job.controller.js lines 125-199) over the job table `db`.
Returns the handler outcome together with the table after the request; the
`!job || job.postedById !== userId` check at line 141 yields the same 404 for
an absent job and for a job owned by someone else. -/
def updateJob (now : Int) (user? : Option AuthUser) (db : List Job) (jobId : Nat)
    (r : UpdateJobReq) : Except ApiError Job × List Job :=
  match authedUser user? with
  | none => (.error ⟨401, "Unauthorized: User not authenticated"⟩, db)
  | some u =>
    match db.find? (fun j => j.id == jobId) with
    | none => (.error ⟨404, "Job not found or you don’t own it"⟩, db)
    | some job =>
      if job.postedById ≠ u.id then
        (.error ⟨404, "Job not found or you don’t own it"⟩, db)
      else
        match buildUpdateData now job r with
        | .error e => (.error e, db)
        | .ok ud =>
          let updated := applyUpdateData job ud
          (.ok updated, db.map (fun j => if j.id == jobId then updated else j))

/-- `deleteJob` (job.controller.js lines 201-225): same ownership-as-404
check as updateJob, then a hard delete. -/
def deleteJob (user? : Option AuthUser) (db : List Job) (jobId : Nat) :
    Except ApiError Unit × List Job :=
  match authedUser user? with
  | none => (.error ⟨401, "Unauthorized: User not authenticated"⟩, db)
  | some u =>
    match db.find? (fun j => j.id == jobId) with
    | none => (.error ⟨404, "Job not found or you don’t own it"⟩, db)
    | some job =>
      if job.postedById ≠ u.id then
        (.error ⟨404, "Job not found or you don’t own it"⟩, db)
      else
        (.ok (), db.filter (fun j => !(j.id == jobId)))

/-! ## createJob (job.controller.js lines 72-123) -/

/-- `req.files.videoFile`: the uploaded file object with the fields the
handler reads (`name`, `mimetype`). -/
structure UploadedFile where
  name : String
  mimetype : String
deriving DecidableEq, Repr

/-- `file.mimetype.startsWith("video/")` (job.controller.js line 88),
computed on the character list so proofs can evaluate it. -/
def mimeIsVideo (m : String) : Bool := "video/".data.isPrefixOf m.data

/-- The createJob request body (lines 79-83). -/
structure CreateJobReq where
  title : String
  description : String
  category : List String
  budgetMin : ℚ
  budgetMax : ℚ
  deadline : Int
  jobDifficulty : String
  projectLength : String
  keyResponsibilities : List String
  requiredSkills : List String
  tools : Option (List String)
  scope : String
  name : String
  email : String
  company : Option String
  note : Option String
  videoFileUrl : Option String
deriving DecidableEq, Repr

/-- The module-scope binding for `uploadFileToS3` in job.controller.js.  The
module imports only `ApiError`, `ApiResponse` and `prisma` (lines 1-3) and
never defines or imports `uploadFileToS3`, so the identifier used at line 91
is unbound: in the module as shipped this binding is `none`, and the call
raises a ReferenceError that the handler's catch converts into the 500
"Failed to post job" error. -/
def moduleUploadFileToS3 : Option (UploadedFile → String → String) := none

/-- `createJob`.  `up?` is the module's binding for `uploadFileToS3` (see
`moduleUploadFileToS3`); `videoFile?` is `req.files && req.files.videoFile`;
`newId` is the id the store assigns. -/
def createJob (up? : Option (UploadedFile → String → String)) (now : Int)
    (user? : Option AuthUser) (r : CreateJobReq) (videoFile? : Option UploadedFile)
    (newId : Nat) : Except ApiError Job :=
  match authedUser user? with
  | none => .error ⟨401, "Unauthorized: User not authenticated"⟩
  | some u =>
    let mk : Option String → Job := fun url =>
      { id := newId
        postedById := u.id
        title := r.title
        description := r.description
        category := r.category
        budgetMin := r.budgetMin
        budgetMax := r.budgetMax
        deadline := r.deadline
        jobDifficulty := r.jobDifficulty
        projectLength := r.projectLength
        keyResponsibilities := r.keyResponsibilities
        requiredSkills := r.requiredSkills
        tools := r.tools.getD []
        scope := r.scope
        name := r.name
        email := r.email
        company := r.company
        note := r.note
        videoFileUrl := url
        isVerified := false
        proposals := 0 }
    match videoFile? with
    | none => .ok (mk r.videoFileUrl)
    | some file =>
      if ¬ mimeIsVideo file.mimetype then
        .error ⟨400, "Invalid file type. Only videos are allowed"⟩
      else
        match up? with
        | none =>
          -- ReferenceError: uploadFileToS3 is not defined → caught at line 119.
          .error ⟨500, "Failed to post job"⟩
        | some up =>
          .ok (mk (some (up file
            ("jobs/" ++ toString u.id ++ "/" ++ toString now ++ "-" ++ file.name))))

/-! ## applyJob (job.controller.js lines 5-69) -/

/-- An Application row (id omitted: nothing reads it). -/
structure ApplicationRec where
  freelancerId : Nat
  jobId : Nat
  aboutFreelancer : Option String
deriving DecidableEq, Repr

/-- A User row with the parts applyJob touches: the freelancerProfile
relation (as the profile id, if any) and the denormalized applied-jobs id
array. -/
structure UserRec where
  id : Nat
  freelancerProfileId : Option Nat
  appliedJobsId : List Nat
deriving DecidableEq, Repr

/-- The slice of the database applyJob reads and writes. -/
structure Db where
  jobs : List Job
  users : List UserRec
  applications : List ApplicationRec
deriving DecidableEq, Repr

/-- `applyJob`: role check, job lookup, user+profile lookup, duplicate check
(`findFirst` on `{freelancerId, jobId}`), then two writes — the application
create and the `appliedJobsId: {push: jobId}` user update. -/
def applyJob (user? : Option AuthUser) (db : Db) (jobId : Nat)
    (aboutFreelancer : Option String) : Except ApiError ApplicationRec × Db :=
  match authedUser user? with
  | none => (.error ⟨401, "Unauthorized: User not authenticated"⟩, db)
  | some u =>
    if u.role ≠ "FREELANCER" then
      (.error ⟨403, "Only freelancers can apply for jobs"⟩, db)
    else
      match db.jobs.find? (fun j => j.id == jobId) with
      | none => (.error ⟨404, "Job not found"⟩, db)
      | some _ =>
        match db.users.find? (fun x => x.id == u.id) with
        | none => (.error ⟨404, "Freelancer profile not found"⟩, db)
        | some freelancer =>
          if freelancer.freelancerProfileId = none then
            (.error ⟨404, "Freelancer profile not found"⟩, db)
          else
            match db.applications.find?
                (fun a => a.freelancerId == u.id && a.jobId == jobId) with
            | some _ => (.error ⟨400, "You have already applied to this job"⟩, db)
            | none =>
              let app : ApplicationRec := ⟨u.id, jobId, aboutFreelancer⟩
              (.ok app,
               { db with
                 applications := db.applications ++ [app]
                 users := db.users.map (fun x =>
                   if x.id == u.id then
                     { x with appliedJobsId := x.appliedJobsId ++ [jobId] }
                   else x) })

/-! ## Sample records used by concrete witnesses and counterexamples -/

/-- A PENDING order whose client is user 7 (freelancer user 9). -/
def sampleOrder : Order :=
  { id := 1, gigId := 1, clientId := 7, freelancerId := 2, freelancerUserId := 9,
    package := "basic", totalPrice := 100, requirements := none, isUrgent := false,
    priorityFee := none, customDetails := none, orderNumber := "ORD-20251011-AB12",
    deliveryDeadline := 1000, deliveryExtensions := 0, extensionReason := none,
    cancellationReason := none, cancellationDate := none, completedAt := none,
    status := .PENDING, statusHistory := [⟨.PENDING, none⟩] }

/-- `sampleOrder` already moved to COMPLETED. -/
def completedSampleOrder : Order := { sampleOrder with status := .COMPLETED }

/-- `sampleOrder` already moved to ACCEPTED. -/
def acceptedSampleOrder : Order := { sampleOrder with status := .ACCEPTED }

/-- An ACTIVE gig with one package `basic` priced 100 and 3-day delivery. -/
def sampleGig : Gig :=
  { id := 1, freelancerId := 2, freelancerUserId := 9, status := "ACTIVE",
    pricing := [("basic", 100)], deliveryTime := 3 }

/-- An ACTIVE gig whose only package `basic` has a price of 0. -/
def zeroPriceGig : Gig :=
  { id := 1, freelancerId := 2, freelancerUserId := 9, status := "ACTIVE",
    pricing := [("basic", 0)], deliveryTime := 3 }

/-- A job with id 1, owned by user 7, with stored budget range 100..200. -/
def sampleJob : Job :=
  { id := 1, postedById := 7, title := "Edit my travel vlog",
    description := "Cut a 10 minute video", category := ["editing"],
    budgetMin := 100, budgetMax := 200, deadline := 99, jobDifficulty := "EASY",
    projectLength := "SHORT", keyResponsibilities := [], requiredSkills := [],
    tools := [], scope := "basic edit", name := "Sam", email := "sam@example.com",
    company := none, note := none, videoFileUrl := none, isVerified := true,
    proposals := 0 }

/-- A createJob request body used by the C3 evaluation. -/
def c3Req : CreateJobReq :=
  { title := "Edit my travel vlog", description := "Cut a 10 minute video",
    category := ["editing"], budgetMin := 100, budgetMax := 200, deadline := 99,
    jobDifficulty := "EASY", projectLength := "SHORT", keyResponsibilities := [],
    requiredSkills := [], tools := none, scope := "basic edit", name := "Sam",
    email := "sam@example.com", company := none, note := none, videoFileUrl := none }

/-! ## Claim theorems -/

/-- Helper: a successful `updateOrderStatus` call on an existing order returns
exactly the order produced by `applyStatusUpdate`. -/
theorem updateOrderStatus_ok_inv (now : Int) (u : AuthUser) (order : Order)
    (s : OrderStatus) (er cr : Option String) (o2 : Order)
    (h : updateOrderStatus now (some u) (some order) (some s) er cr = .ok o2) :
    o2 = applyStatusUpdate now u.id order s er cr := by
  unfold updateOrderStatus authedUser at h
  by_cases h0 : u.id = 0
  · simp [h0] at h
  · simp only [h0, if_false, ite_false] at h
    by_cases hA : order.clientId = u.id ∨ order.freelancerUserId = u.id
    · rw [if_neg (not_not_intro hA)] at h
      by_cases hc : order.status ≠ OrderStatus.COMPLETED ∧ s ∉ validTransitions order.status
      · rw [if_pos hc] at h
        cases h
      · rw [if_neg hc] at h
        injection h with h
        exact h.symm
    · rw [if_pos hA] at h
      cases h

/-- C1: for every existing order and every actor who is the order's client or
the order's freelancer's underlying user, `updateOrderStatus` with a supplied
target status succeeds iff the (current, target) pair is in the transition
table or the current status is COMPLETED; on failure it returns the 400
InvalidTransition error naming the attempted from/to pair. -/
theorem C1_updateOrderStatus_transition_table (now : Int) (u : AuthUser) (order : Order)
    (s : OrderStatus) (er cr : Option String)
    (hu : u.id ≠ 0)
    (hauth : order.clientId = u.id ∨ order.freelancerUserId = u.id) :
    ((updateOrderStatus now (some u) (some order) (some s) er cr).isOk = true ↔
      (s ∈ validTransitions order.status ∨ order.status = OrderStatus.COMPLETED)) ∧
    (s ∉ validTransitions order.status → order.status ≠ OrderStatus.COMPLETED →
      updateOrderStatus now (some u) (some order) (some s) er cr =
        .error ⟨400, "Invalid status transition from " ++ order.status.str
                      ++ " to " ++ s.str⟩) := by
  unfold updateOrderStatus authedUser
  simp only [hu, if_false, ite_false]
  rw [if_neg (not_not_intro hauth)]
  by_cases hc : order.status ≠ OrderStatus.COMPLETED ∧ s ∉ validTransitions order.status
  · rw [if_pos hc]
    constructor
    · constructor
      · intro hfalse
        exact Bool.noConfusion hfalse
      · intro hor
        rcases hc with ⟨hne, hnm⟩
        rcases hor with hm | he
        · exact absurd hm hnm
        · exact absurd he hne
    · intro _ _
      rfl
  · rw [if_neg hc]
    constructor
    · constructor
      · intro _
        by_cases he : order.status = OrderStatus.COMPLETED
        · exact Or.inr he
        · rcases not_and_or.mp hc with h1 | h2
          · exact absurd he h1
          · exact Or.inl (not_not.mp h2)
      · intro _
        rfl
    · intro hnm hne
      exact absurd ⟨hne, hnm⟩ hc

/-- Witness for C1 at a concrete input: user 7 is the client of the PENDING
`sampleOrder` and requests the ACCEPTED status. -/
theorem C1_witness :
    ((updateOrderStatus 5 (some ⟨7, "CLIENT"⟩) (some sampleOrder)
        (some .ACCEPTED) none none).isOk = true ↔
      (OrderStatus.ACCEPTED ∈ validTransitions sampleOrder.status ∨
        sampleOrder.status = OrderStatus.COMPLETED)) ∧
    (OrderStatus.ACCEPTED ∉ validTransitions sampleOrder.status →
      sampleOrder.status ≠ OrderStatus.COMPLETED →
      updateOrderStatus 5 (some ⟨7, "CLIENT"⟩) (some sampleOrder)
          (some .ACCEPTED) none none =
        .error ⟨400, "Invalid status transition from " ++ sampleOrder.status.str
                      ++ " to " ++ OrderStatus.ACCEPTED.str⟩) :=
  C1_updateOrderStatus_transition_table 5 ⟨7, "CLIENT"⟩ sampleOrder .ACCEPTED none none
    (by decide) (Or.inl rfl)

/-- C10: for every existing order and authorized actor, `updateOrderStatus`
with a missing or empty target status fails with the InvalidTransition error
(interpolating `undefined` as the target), whatever the current status is —
including COMPLETED, so the COMPLETED bypass needs a supplied status. -/
theorem C10_missing_status_always_fails (now : Int) (u : AuthUser) (order : Order)
    (er cr : Option String)
    (hu : u.id ≠ 0)
    (hauth : order.clientId = u.id ∨ order.freelancerUserId = u.id) :
    updateOrderStatus now (some u) (some order) none er cr =
      .error ⟨400, "Invalid status transition from " ++ order.status.str
                    ++ " to " ++ "undefined"⟩ := by
  unfold updateOrderStatus authedUser
  simp only [hu, if_false, ite_false]
  rw [if_neg (not_not_intro hauth)]
  rfl

/-- Witness for C10 at a concrete input: the order's current status is
COMPLETED and the request carries no status, yet the call still fails. -/
theorem C10_witness :
    updateOrderStatus 5 (some ⟨7, "CLIENT"⟩) (some completedSampleOrder) none none none =
      .error ⟨400, "Invalid status transition from " ++ completedSampleOrder.status.str
                    ++ " to " ++ "undefined"⟩ :=
  C10_missing_status_always_fails 5 ⟨7, "CLIENT"⟩ completedSampleOrder none none
    (by decide) (Or.inl rfl)

/-- The order that `updateOrderStatus` returns for the C2 counterexample call:
the cancellation branch runs, so no extension bookkeeping happens. -/
def c2CancelledOrder : Order :=
  { sampleOrder with
    status := .CANCELLED,
    cancellationReason := some "Not specified",
    cancellationDate := some 5,
    statusHistory := sampleOrder.statusHistory ++ [⟨.CANCELLED, some 7⟩] }

/-- C2 counterexample: a successful `updateOrderStatus` to CANCELLED with a
non-empty `extensionReason` supplied performs no extension bookkeeping — the
extension counter, stored reason and delivery deadline are all unchanged, so
the bookkeeping is not independent of the target status. -/
theorem C2_counterexample :
    strTruthy (some "Need more time") = true ∧
    updateOrderStatus 5 (some ⟨7, "CLIENT"⟩) (some sampleOrder) (some .CANCELLED)
        (some "Need more time") none = .ok c2CancelledOrder ∧
    c2CancelledOrder.deliveryExtensions = sampleOrder.deliveryExtensions ∧
    c2CancelledOrder.extensionReason = none ∧
    c2CancelledOrder.deliveryDeadline = sampleOrder.deliveryDeadline := by decide

/-- C2 as amended: for every successful `updateOrderStatus` whose target
status is neither CANCELLED nor COMPLETED, a supplied non-empty
`extensionReason` increments the order's extension counter, stores the
reason, and moves the delivery deadline forward by exactly 7 days. -/
theorem C2_amended_extension_bookkeeping (now : Int) (u : AuthUser) (order : Order)
    (s : OrderStatus) (er cr : Option String) (o2 : Order)
    (hs1 : s ≠ OrderStatus.CANCELLED) (hs2 : s ≠ OrderStatus.COMPLETED)
    (her : strTruthy er = true)
    (h : updateOrderStatus now (some u) (some order) (some s) er cr = .ok o2) :
    o2.deliveryExtensions = order.deliveryExtensions + 1 ∧
    o2.extensionReason = er ∧
    o2.deliveryDeadline = order.deliveryDeadline + 7 * 24 * 60 * 60 * 1000 := by
  rw [updateOrderStatus_ok_inv now u order s er cr o2 h]
  unfold applyStatusUpdate
  rw [if_neg hs1, if_neg hs2, if_pos her]
  exact ⟨rfl, rfl, rfl⟩

/-- The order produced for the C2 witness call (ACCEPTED → IN_PROGRESS with an
extension reason supplied). -/
def c2ExtendedOrder : Order :=
  applyStatusUpdate 5 7 acceptedSampleOrder .IN_PROGRESS
    (some "Client asked for more scenes") none

/-- Witness for the amended C2 at a concrete input: ACCEPTED → IN_PROGRESS
with a non-empty extension reason. -/
theorem C2_witness :
    c2ExtendedOrder.deliveryExtensions = acceptedSampleOrder.deliveryExtensions + 1 ∧
    c2ExtendedOrder.extensionReason = some "Client asked for more scenes" ∧
    c2ExtendedOrder.deliveryDeadline =
      acceptedSampleOrder.deliveryDeadline + 7 * 24 * 60 * 60 * 1000 :=
  C2_amended_extension_bookkeeping 5 ⟨7, "CLIENT"⟩ acceptedSampleOrder .IN_PROGRESS
    (some "Client asked for more scenes") none c2ExtendedOrder
    (by decide) (by decide) (by decide) (by decide)

/-- C7: for every existing order and authorized actor, `cancelOrder` fails
with the 400 business error exactly when the current status is outside
{PENDING, ACCEPTED, IN_PROGRESS}; otherwise it succeeds, setting status
CANCELLED with the (defaulted) cancellation reason and timestamp and
appending exactly one StatusHistory entry recording CANCELLED and the acting
user. -/
theorem C7_cancelOrder_contract (now : Int) (u : AuthUser) (order : Order)
    (cr : Option String)
    (hu : u.id ≠ 0)
    (hauth : order.clientId = u.id ∨ order.freelancerUserId = u.id) :
    (order.status ∉ cancellableStatuses →
      cancelOrder now (some u) (some order) cr =
        .error ⟨400, "Order cannot be cancelled in its current status"⟩) ∧
    (order.status ∈ cancellableStatuses →
      cancelOrder now (some u) (some order) cr =
        .ok { order with
              status := .CANCELLED,
              cancellationReason := some (jsOrStr cr "Not specified"),
              cancellationDate := some now,
              statusHistory := order.statusHistory ++ [⟨.CANCELLED, some u.id⟩] }) := by
  unfold cancelOrder authedUser
  simp only [hu, if_false, ite_false]
  rw [if_neg (not_not_intro hauth)]
  constructor
  · intro hnm
    rw [if_pos hnm]
  · intro hm
    rw [if_neg (not_not_intro hm)]

/-- Witness for C7 at a concrete input: the PENDING `sampleOrder`, cancelled by
its client with no reason supplied. -/
theorem C7_witness :
    (sampleOrder.status ∉ cancellableStatuses →
      cancelOrder 5 (some ⟨7, "CLIENT"⟩) (some sampleOrder) none =
        .error ⟨400, "Order cannot be cancelled in its current status"⟩) ∧
    (sampleOrder.status ∈ cancellableStatuses →
      cancelOrder 5 (some ⟨7, "CLIENT"⟩) (some sampleOrder) none =
        .ok { sampleOrder with
              status := .CANCELLED,
              cancellationReason := some (jsOrStr none "Not specified"),
              cancellationDate := some 5,
              statusHistory := sampleOrder.statusHistory ++ [⟨.CANCELLED, some 7⟩] }) :=
  C7_cancelOrder_contract 5 ⟨7, "CLIENT"⟩ sampleOrder none (by decide) (Or.inl rfl)

/-- C9: for every successful `createOrder` whose selected package has price
`p`, the created order has `totalPrice = 1.5 × p` and `priorityFee = 0.5 × p`
when urgent, and `totalPrice = p` with no priority fee otherwise. -/
theorem C9_createOrder_pricing (now : Int) (u : AuthUser) (gigs : List Gig)
    (req : CreateOrderReq) (newId : Nat) (dp rp : String) (gid : Nat) (gig : Gig)
    (p : ℚ) (o : Order)
    (hgid : req.gigId = some gid)
    (hfind : gigs.find? (fun g => g.id == gid) = some gig)
    (hp : lookupPricing gig.pricing req.selectedPackage = some p)
    (hok : createOrder now (some u) gigs req newId dp rp = .ok o) :
    (req.isUrgent = true → o.totalPrice = 1.5 * p ∧ o.priorityFee = some (0.5 * p)) ∧
    (req.isUrgent = false → o.totalPrice = p ∧ o.priorityFee = none) := by
  unfold createOrder authedUser at hok
  by_cases h0 : u.id = 0
  · simp [h0] at hok
  · simp only [h0, if_false, ite_false, hgid] at hok
    by_cases hsp : req.selectedPackage = ""
    · simp only [if_pos hsp] at hok
      cases hok
    · simp only [if_neg hsp, hfind] at hok
      by_cases hact : gig.status ≠ "ACTIVE"
      · simp only [if_pos hact] at hok
        cases hok
      · simp only [if_neg hact, hp] at hok
        by_cases hz : p = 0
        · simp only [if_pos hz] at hok
          cases hok
        · simp only [if_neg hz] at hok
          injection hok with hok
          subst hok
          refine ⟨fun hb => ?_, fun hb => ?_⟩
          · simp [hb, mul_comm]
          · simp [hb]

/-- The order returned by the C9 witness call (urgent order of the 100-priced
`basic` package of `sampleGig`). -/
def c9Order : Order :=
  { id := 1, gigId := 1, clientId := 7, freelancerId := 2, freelancerUserId := 9,
    package := "basic", totalPrice := 100 * 1.5, requirements := none, isUrgent := true,
    priorityFee := some (100 * 0.5), customDetails := none,
    orderNumber := "ORD-20251011-AB12",
    deliveryDeadline := 259200000, deliveryExtensions := 0, extensionReason := none,
    cancellationReason := none, cancellationDate := none, completedAt := none,
    status := .PENDING, statusHistory := [⟨.PENDING, none⟩] }

/-- Witness for C9 at a concrete input: an urgent order of the `basic` package
(price 100) yields totalPrice 1.5 × 100 and priorityFee 0.5 × 100. -/
theorem C9_witness :
    ((⟨some 1, "basic", none, true, none⟩ : CreateOrderReq).isUrgent = true →
      c9Order.totalPrice = 1.5 * 100 ∧ c9Order.priorityFee = some (0.5 * 100)) ∧
    ((⟨some 1, "basic", none, true, none⟩ : CreateOrderReq).isUrgent = false →
      c9Order.totalPrice = (100 : ℚ) ∧ c9Order.priorityFee = none) :=
  C9_createOrder_pricing 0 ⟨7, "CLIENT"⟩ [sampleGig] ⟨some 1, "basic", none, true, none⟩
    1 "20251011" "AB12" 1 sampleGig 100 c9Order rfl (by decide) (by decide) rfl

/-- C5 counterexample: `basic` is a valid key of `zeroPriceGig`'s pricing
table, yet `createOrder` still fails with the 400 "Invalid package selected"
error, because the truthiness check `!pricing` also rejects a price of 0. -/
theorem C5_counterexample :
    lookupPricing zeroPriceGig.pricing "basic" = some 0 ∧
    zeroPriceGig.status = "ACTIVE" ∧
    createOrder 0 (some ⟨7, "CLIENT"⟩) [zeroPriceGig]
        ⟨some 1, "basic", none, false, none⟩ 1 "20251011" "AB12" =
      .error ⟨400, "Invalid package selected"⟩ := by decide

/-- C5 as amended: for every existing ACTIVE gig and non-empty selected
package, `createOrder` fails with the 400 "Invalid package selected" error
exactly when the package's lookup in the pricing table yields no entry or an
entry with the falsy price 0. -/
theorem C5_amended_package_validation (now : Int) (u : AuthUser) (gigs : List Gig)
    (req : CreateOrderReq) (newId : Nat) (dp rp : String) (gid : Nat) (gig : Gig)
    (hu : u.id ≠ 0) (hgid : req.gigId = some gid) (hpkg : req.selectedPackage ≠ "")
    (hfind : gigs.find? (fun g => g.id == gid) = some gig)
    (hactive : gig.status = "ACTIVE") :
    createOrder now (some u) gigs req newId dp rp =
        .error ⟨400, "Invalid package selected"⟩ ↔
      (lookupPricing gig.pricing req.selectedPackage = none ∨
       lookupPricing gig.pricing req.selectedPackage = some 0) := by
  unfold createOrder authedUser
  simp only [hu, if_false, ite_false, hgid, if_neg hpkg, hfind,
    if_neg (not_not_intro hactive)]
  cases hl : lookupPricing gig.pricing req.selectedPackage with
  | none => simp
  | some p =>
    by_cases hz : p = 0
    · simp [hz]
    · simp [hz]

/-- Witness for the amended C5 at a concrete input: `premium` is not a key of
`sampleGig`'s pricing table, and the error is raised. -/
theorem C5_witness :
    createOrder 0 (some ⟨7, "CLIENT"⟩) [sampleGig]
        ⟨some 1, "premium", none, false, none⟩ 1 "20251011" "AB12" =
        .error ⟨400, "Invalid package selected"⟩ ↔
      (lookupPricing sampleGig.pricing "premium" = none ∨
       lookupPricing sampleGig.pricing "premium" = some 0) :=
  C5_amended_package_validation 0 ⟨7, "CLIENT"⟩ [sampleGig]
    ⟨some 1, "premium", none, false, none⟩ 1 "20251011" "AB12" 1 sampleGig
    (by decide) rfl (by decide) (by decide) rfl

/-- C8: for every job table, requesting actor and job id such that no stored
job has both that id and that actor as owner — i.e. the job is absent or is
owned by someone else — `updateJob` and `deleteJob` return the identical 404
error and leave the table unchanged, so a non-owner cannot distinguish an
existing job from an absent one. -/
theorem C8_ownership_masked_as_absence (now : Int) (u : AuthUser) (db : List Job)
    (jobId : Nat) (r : UpdateJobReq)
    (hu : u.id ≠ 0)
    (h : ∀ j ∈ db, j.id = jobId → j.postedById ≠ u.id) :
    updateJob now (some u) db jobId r =
      (.error ⟨404, "Job not found or you don’t own it"⟩, db) ∧
    deleteJob (some u) db jobId =
      (.error ⟨404, "Job not found or you don’t own it"⟩, db) := by
  have hfind : ∀ job : Job, db.find? (fun j => j.id == jobId) = some job →
      job.postedById ≠ u.id := fun job hf =>
    h job (List.mem_of_find?_eq_some hf) (by simpa using List.find?_some hf)
  constructor
  · unfold updateJob authedUser
    simp only [hu, if_false, ite_false]
    cases hf : db.find? (fun j => j.id == jobId) with
    | none => rfl
    | some job => simp only [if_pos (hfind job hf)]
  · unfold deleteJob authedUser
    simp only [hu, if_false, ite_false]
    cases hf : db.find? (fun j => j.id == jobId) with
    | none => rfl
    | some job => simp only [if_pos (hfind job hf)]

/-- Witness for C8 at a concrete input: user 8 is not the owner of `sampleJob`
(owned by user 7), and both handlers answer with the absent-job 404. -/
theorem C8_witness :
    updateJob 0 (some ⟨8, "CLIENT"⟩) [sampleJob] 1 {} =
      (.error ⟨404, "Job not found or you don’t own it"⟩, [sampleJob]) ∧
    deleteJob (some ⟨8, "CLIENT"⟩) [sampleJob] 1 =
      (.error ⟨404, "Job not found or you don’t own it"⟩, [sampleJob]) :=
  C8_ownership_masked_as_absence 0 ⟨8, "CLIENT"⟩ [sampleJob] 1 {}
    (by decide) (by decide)

/-- C4 counterexample: on `sampleJob` (stored budgetMin 100) a request
supplying `budgetMin = 0` (valid: ≥ 0) and `budgetMax = 50` (≥ the
just-updated budgetMin 0) is still rejected with the budgetMax error, because
the JS fallback `updateData.budgetMin || job.budgetMin` treats the new 0 as
falsy and validates against the stored 100 instead. -/
theorem C4_counterexample :
    ((0 : ℚ) ≤ 0 ∧ (0 : ℚ) ≤ 50) ∧
    (updateJob 0 (some ⟨7, "CLIENT"⟩) [sampleJob] 1
        { budgetMin := some (some 0), budgetMax := some (some 50) }).1 =
      .error ⟨400, "Invalid budgetMax value; must be greater than budgetMin"⟩ := by
  decide

/-- Helper: every error `checkDeadline` produces is the deadline error. -/
theorem checkDeadline_error_msg (now : Int) (r : UpdateJobReq) (e : ApiError)
    (h : checkDeadline now r = .error e) :
    e = ⟨400, "Invalid deadline. Please provide a future date"⟩ := by
  unfold checkDeadline at h
  rcases hd : r.deadline with _ | (_ | t) <;> simp only [hd] at h
  · cases h
  · injection h with h
    exact h.symm
  · split at h
    · injection h with h
      exact h.symm
    · cases h

/-- Helper: every error `checkEmail` produces is the email error. -/
theorem checkEmail_error_msg (r : UpdateJobReq) (e : ApiError)
    (h : checkEmail r = .error e) : e = ⟨400, "Invalid email format"⟩ := by
  unfold checkEmail at h
  rcases he : r.email with _ | s <;> simp only [he] at h
  · cases h
  · split at h
    · cases h
    · split at h
      · cases h
      · injection h with h
        exact h.symm

/-- The budgetMin value supplied by an update request, when present and
numeric (the claim's "just-updated budgetMin"). -/
def suppliedBudgetMin (r : UpdateJobReq) : Option ℚ :=
  match r.budgetMin with
  | some (some m) => some m
  | _ => none

/-- C4 as amended: on an owned job, `updateJob` rejects a supplied budgetMin
that is non-numeric or negative; and, when budgetMin passes, it rejects a
supplied numeric budgetMax exactly when it is below
`jsOrNum (suppliedBudgetMin r) job.budgetMin` — the just-updated budgetMin
when that is supplied and nonzero, else the job's stored budgetMin (a
supplied budgetMin of 0 is falsy under `||` and is ignored). -/
theorem C4_amended_budget_validation (now : Int) (u : AuthUser) (db : List Job)
    (jobId : Nat) (r : UpdateJobReq) (job : Job)
    (hu : u.id ≠ 0)
    (hfind : db.find? (fun j => j.id == jobId) = some job)
    (hown : job.postedById = u.id) :
    (∀ v, r.budgetMin = some v → (v = none ∨ ∃ m, v = some m ∧ m < 0) →
      (updateJob now (some u) db jobId r).1 = .error ⟨400, "Invalid budgetMin value"⟩) ∧
    (∀ q, r.budgetMax = some (some q) →
      (r.budgetMin = none ∨ ∃ m, r.budgetMin = some (some m) ∧ 0 ≤ m) →
      ((updateJob now (some u) db jobId r).1 =
          .error ⟨400, "Invalid budgetMax value; must be greater than budgetMin"⟩ ↔
        q < jsOrNum (suppliedBudgetMin r) job.budgetMin)) := by
  unfold updateJob authedUser
  simp only [hu, if_false, ite_false, hfind, if_neg (not_not_intro hown)]
  constructor
  · intro v hv hbad
    unfold buildUpdateData checkBudgetMin
    rcases hbad with rfl | ⟨m, rfl, hm⟩
    · simp only [hv]
    · simp only [hv, if_pos hm]
  · intro q hq hmin
    have hcmin : checkBudgetMin r = .ok (suppliedBudgetMin r) := by
      unfold checkBudgetMin suppliedBudgetMin
      rcases hmin with hnone | ⟨m, hsome, hm⟩
      · simp only [hnone]
      · simp only [hsome, if_neg (not_lt.mpr hm)]
    unfold buildUpdateData
    rw [hcmin]
    unfold checkBudgetMax
    simp only [hq]
    by_cases hlt : q < jsOrNum (suppliedBudgetMin r) job.budgetMin
    · simp only [if_pos hlt]
      simp [hlt]
    · simp only [if_neg hlt]
      rcases hd : checkDeadline now r with e | dl
      · have := checkDeadline_error_msg now r e hd
        subst this
        simp [hlt]
      · rcases he : checkEmail r with e | em
        · have := checkEmail_error_msg r e he
          subst this
          simp [hlt]
        · simp [hlt]

/-- Witness for the amended C4 at a concrete input: budgetMin 20 is supplied
and nonzero, so budgetMax 10 is validated against 20 and rejected. -/
theorem C4_witness :
    (updateJob 0 (some ⟨7, "CLIENT"⟩) [sampleJob] 1
        { budgetMin := some (some 20), budgetMax := some (some 10) }).1 =
      .error ⟨400, "Invalid budgetMax value; must be greater than budgetMin"⟩ :=
  ((C4_amended_budget_validation 0 ⟨7, "CLIENT"⟩ [sampleJob] 1
      { budgetMin := some (some 20), budgetMax := some (some 10) } sampleJob
      (by decide) (by decide) rfl).2 10 rfl
      (Or.inr ⟨20, rfl, by decide⟩)).mpr (by decide)

/-- C3: `createJob` does reject a non-video attachment with the 400
ValidationError, but with a video attachment the shipped module — whose
`uploadFileToS3` binding is missing (never imported or defined, see
`moduleUploadFileToS3`) — raises a ReferenceError that the catch block turns
into the 500 "Failed to post job" error, so the upload-and-succeed half of
the claim never happens. -/
theorem C3_createJob_video_attachment :
    createJob moduleUploadFileToS3 0 (some ⟨1, "CLIENT"⟩) c3Req
        (some ⟨"doc.pdf", "application/pdf"⟩) 1 =
      .error ⟨400, "Invalid file type. Only videos are allowed"⟩ ∧
    mimeIsVideo "video/mp4" = true ∧
    createJob moduleUploadFileToS3 0 (some ⟨1, "CLIENT"⟩) c3Req
        (some ⟨"demo.mp4", "video/mp4"⟩) 1 =
      .error ⟨500, "Failed to post job"⟩ := by decide

/-- Helper: a successful `applyJob` call means every check passed — the actor
is an authenticated FREELANCER, the job and the freelancer profile exist, no
application existed for the (freelancer, job) pair — and the new state holds
exactly the appended application and the pushed applied-jobs id. -/
theorem applyJob_ok_inv (u : AuthUser) (db : Db) (jobId : Nat) (about : Option String)
    (app : ApplicationRec) (db2 : Db)
    (h : applyJob (some u) db jobId about = (.ok app, db2)) :
    u.id ≠ 0 ∧ u.role = "FREELANCER" ∧
    (∃ j, db.jobs.find? (fun j => j.id == jobId) = some j) ∧
    (∃ fr, db.users.find? (fun x => x.id == u.id) = some fr ∧
      fr.freelancerProfileId ≠ none) ∧
    db.applications.find? (fun a => a.freelancerId == u.id && a.jobId == jobId) = none ∧
    app = ⟨u.id, jobId, about⟩ ∧
    db2 = { db with
            applications := db.applications ++ [⟨u.id, jobId, about⟩],
            users := db.users.map (fun x =>
              if x.id == u.id then { x with appliedJobsId := x.appliedJobsId ++ [jobId] }
              else x) } := by
  unfold applyJob authedUser at h
  by_cases h0 : u.id = 0
  · simp [h0] at h
  · simp only [h0, if_false, ite_false] at h
    by_cases hrole : u.role ≠ "FREELANCER"
    · simp [if_pos hrole] at h
    · simp only [if_neg hrole] at h
      rcases hj : db.jobs.find? (fun j => j.id == jobId) with _ | j <;>
        simp only [hj] at h
      · simp at h
      · rcases hfr : db.users.find? (fun x => x.id == u.id) with _ | fr <;>
          simp only [hfr] at h
        · simp at h
        · by_cases hprof : fr.freelancerProfileId = none
          · simp [if_pos hprof] at h
          · simp only [if_neg hprof] at h
            rcases ha : db.applications.find?
                (fun a => a.freelancerId == u.id && a.jobId == jobId) with _ | a0 <;>
              simp only [ha] at h
            · simp only [Prod.mk.injEq, Except.ok.injEq] at h
              exact ⟨h0, not_not.mp hrole, ⟨j, hj⟩, ⟨fr, hfr, hprof⟩, ha,
                h.1.symm, h.2.symm⟩
            · simp at h

/-- C6: after a successful `applyJob` for a (freelancer, job) pair, a second
`applyJob` call for the same pair returns the 400 duplicate error and leaves
the state untouched, and the state holds exactly one Application record for
the pair — the at-most-one-application invariant is preserved. -/
theorem C6_applyJob_at_most_one_application (u : AuthUser) (db : Db) (jobId : Nat)
    (about about2 : Option String) (app : ApplicationRec) (db2 : Db)
    (h : applyJob (some u) db jobId about = (.ok app, db2)) :
    applyJob (some u) db2 jobId about2 =
      (.error ⟨400, "You have already applied to this job"⟩, db2) ∧
    (db2.applications.filter
      (fun a => a.freelancerId == u.id && a.jobId == jobId)).length = 1 := by
  obtain ⟨h0, hrole, ⟨j, hj⟩, ⟨fr, hfr, hprof⟩, ha, happ, hdb2⟩ :=
    applyJob_ok_inv u db jobId about app db2 h
  subst hdb2
  have hfid : fr.id = u.id := by simpa using List.find?_some hfr
  have husers : (db.users.map (fun x =>
      if x.id == u.id then { x with appliedJobsId := x.appliedJobsId ++ [jobId] }
      else x)).find? (fun x => x.id == u.id) =
      some { fr with appliedJobsId := fr.appliedJobsId ++ [jobId] } := by
    rw [List.find?_map]
    have hcomp : ((fun x : UserRec => x.id == u.id) ∘ (fun x : UserRec =>
        if x.id == u.id then { x with appliedJobsId := x.appliedJobsId ++ [jobId] }
        else x)) = (fun x : UserRec => x.id == u.id) := by
      funext x
      by_cases hx : x.id = u.id
      · simp [hx]
      · simp [hx]
    rw [hcomp, hfr]
    simp [hfid]
  have happs : ((db.applications ++ [(⟨u.id, jobId, about⟩ : ApplicationRec)]).find?
      (fun a => a.freelancerId == u.id && a.jobId == jobId)) =
      some ⟨u.id, jobId, about⟩ := by
    rw [List.find?_append, ha]
    simp
  constructor
  · unfold applyJob authedUser
    simp only [h0, if_false, ite_false, if_neg (not_not_intro hrole)]
    simp only [hj, husers, happs, if_neg hprof]
  · simp only [List.filter_append]
    rw [List.filter_eq_nil_iff.mpr (List.find?_eq_none.mp ha)]
    simp

/-- The database before the C6 witness call: one job, one freelancer user with
a profile, no applications yet. -/
def c6Db : Db :=
  { jobs := [sampleJob], users := [⟨3, some 11, []⟩], applications := [] }

/-- The application created by the first C6 witness call. -/
def c6App : ApplicationRec := ⟨3, 1, some "I cut trailers"⟩

/-- The database after the first C6 witness call: the application appended and
job 1 pushed onto the freelancer's applied-jobs list. -/
def c6Db2 : Db :=
  { jobs := [sampleJob], users := [⟨3, some 11, [1]⟩], applications := [c6App] }

/-- Witness for C6 at a concrete input: freelancer 3 applies to job 1 twice;
the second call is rejected as a duplicate and the single record remains. -/
theorem C6_witness :
    applyJob (some ⟨3, "FREELANCER"⟩) c6Db2 1 none =
      (.error ⟨400, "You have already applied to this job"⟩, c6Db2) ∧
    (c6Db2.applications.filter
      (fun a => a.freelancerId == (⟨3, "FREELANCER"⟩ : AuthUser).id &&
        a.jobId == 1)).length = 1 :=
  C6_applyJob_at_most_one_application ⟨3, "FREELANCER"⟩ c6Db 1
    (some "I cut trailers") none c6App c6Db2 (by decide)

end Vidlancing
